import Mathlib

/-!
# Verification of the pydepsdev resilient fetch engine

A shallow embedding of `DepsdevAPI.fetch_data` from `pydepsdev/api.py`:
a retrying, backoff-governed HTTP GET loop that classifies failures and
either returns a parsed JSON payload or raises `APIError`.

Modelling choices:
* Python `int` is `ℤ` (statuses, `max_retries`); durations are `ℚ`.
* The outcome of each HTTP round trip is supplied as a function
  `ℕ → Outcome` from the attempt index (0-based), abstracting the
  transport: a successful response with parsed JSON body, an
  `aiohttp.ClientResponseError` carrying a status, a
  `ServerTimeoutError`/`ClientConnectionError` (no status), or any
  other exception (caught by no handler in the source).
* The jitter draw `random.uniform(0, 0.1 * 2**attempt)` is supplied as
  a function `ℕ → ℚ` from the attempt index; theorems hypothesise the
  range where it matters.
* The result distinguishes a returned payload, a raised `APIError`
  (optional status plus message, as in `exceptions.py`), and an
  exception that propagates uncaught out of `fetch_data`.
* The loop also records its observable effects: how many GET attempts
  were issued and the list of backoff delays slept, in order.
-/

/-- A JSON-like value, standing for the `JSONType` payloads
(`Union[Dict[str, Any], List[Any]]` and whatever nests inside). -/
inductive Json where
  | null : Json
  | bool (b : Bool) : Json
  | num (q : ℚ) : Json
  | str (s : String) : Json
  | arr (elems : List Json) : Json
  | obj (fields : List (String × Json)) : Json

/-- The outcome of one HTTP GET attempt, as the `try`/`except` arms of
`fetch_data` distinguish them: a body parsed as JSON, an
`aiohttp.ClientResponseError` with a status and message, a
`ServerTimeoutError` or `ClientConnectionError`, or any other
exception. -/
inductive Outcome where
  | success (payload : Json) : Outcome
  | httpError (status : ℤ) (message : String) : Outcome
  | networkError (message : String) : Outcome
  | otherError (message : String) : Outcome

/-- What a call to `fetch_data` does: return a payload, raise
`APIError status message`, or let an unhandled exception escape. -/
inductive FetchResult where
  | payload (j : Json) : FetchResult
  | apiError (status : Option ℤ) (message : String) : FetchResult
  | uncaught (message : String) : FetchResult

/-- Discriminator: the call raised the terminal error type `APIError`. -/
def isAPIError : FetchResult → Bool
  | .apiError _ _ => true
  | _ => false

/-- Discriminator: the call did not return a payload. -/
def isFailure : FetchResult → Bool
  | .payload _ => false
  | _ => true

/-- The client object: the configuration fields set in
`DepsdevAPI.__init__` (the aiohttp session handle is abstracted away). -/
structure DepsdevAPI where
  timeout_duration : ℚ
  max_retries : ℤ
  base_backoff : ℚ
  max_backoff : ℚ
  headers : List (String × String)

/-- Constructor `DepsdevAPI.__init__`: stores the configuration and the
fixed header set. -/
def DepsdevAPI.init (timeout_duration : ℚ) (max_retries : ℤ)
    (base_backoff max_backoff : ℚ) : DepsdevAPI :=
  { timeout_duration := timeout_duration
    max_retries := max_retries
    base_backoff := base_backoff
    max_backoff := max_backoff
    headers := [("Content-Type", "application/json")] }

/-- The backoff delay computed in `fetch_data`:
`min(base_backoff * 2**attempt_count + random.uniform(0, 0.1 * (2**attempt_count)), max_backoff)`,
with the jitter draw `u` passed in explicitly. -/
def backoffDelay (base maxB : ℚ) (attempt : ℕ) (u : ℚ) : ℚ :=
  min (base * 2 ^ attempt + u) maxB

/-- The observable behaviour of one `fetch_data` call: the client after
the call, the result, the number of GET attempts issued, and the
backoff delays slept, in order. -/
structure FetchTrace where
  client : DepsdevAPI
  result : FetchResult
  attempts : ℕ
  sleeps : List ℚ

/-- The `while attempt_count <= self.max_retries` loop of `fetch_data`,
entered with counter `attempt`. Each iteration issues one GET (outcome
`outcomes attempt`); a 5xx `ClientResponseError` or a
timeout/connection error retries after a backoff sleep while
`attempt_count < max_retries` and otherwise raises the exhausted
`APIError`; any other status raises the client error; any other
exception propagates; falling out of the loop raises the defensive
`APIError(None, "Exceeded retry loop unexpectedly")`. -/
def fetchLoop (c : DepsdevAPI) (outcomes : ℕ → Outcome) (jitter : ℕ → ℚ)
    (attempt : ℕ) : FetchTrace :=
  if _h : (attempt : ℤ) ≤ c.max_retries then
    match outcomes attempt with
    | .success j => ⟨c, .payload j, 1, []⟩
    | .httpError status msg =>
        if 500 ≤ status ∧ status < 600 then
          if h2 : (attempt : ℤ) < c.max_retries then
            let d := backoffDelay c.base_backoff c.max_backoff attempt (jitter attempt)
            let rest := fetchLoop c outcomes jitter (attempt + 1)
            ⟨rest.client, rest.result, rest.attempts + 1, d :: rest.sleeps⟩
          else
            ⟨c, .apiError (some status)
              ("Server error after " ++ toString c.max_retries ++ " retries: " ++ msg),
              1, []⟩
        else
          ⟨c, .apiError (some status) ("Client error: " ++ msg), 1, []⟩
    | .networkError msg =>
        if h2 : (attempt : ℤ) < c.max_retries then
          let d := backoffDelay c.base_backoff c.max_backoff attempt (jitter attempt)
          let rest := fetchLoop c outcomes jitter (attempt + 1)
          ⟨rest.client, rest.result, rest.attempts + 1, d :: rest.sleeps⟩
        else
          ⟨c, .apiError none
            ("Network failure after " ++ toString c.max_retries ++ " retries: " ++ msg),
            1, []⟩
    | .otherError msg => ⟨c, .uncaught msg, 1, []⟩
  else
    ⟨c, .apiError none "Exceeded retry loop unexpectedly", 0, []⟩
termination_by (c.max_retries + 1 - (attempt : ℤ)).toNat
decreasing_by
  all_goals omega

/-- Method `DepsdevAPI.fetch_data`: run the retry loop from
`attempt_count = 0`. -/
def DepsdevAPI.fetch_data (c : DepsdevAPI) (outcomes : ℕ → Outcome)
    (jitter : ℕ → ℚ) : FetchTrace :=
  fetchLoop c outcomes jitter 0

/-- Outcomes the engine classifies as retryable: a 5xx
`ClientResponseError`, or a timeout/connection error. -/
def retryable : Outcome → Bool
  | .httpError status _ => decide (500 ≤ status) && decide (status < 600)
  | .networkError _ => true
  | _ => false

/-- Unfolding equation for the well-founded `fetchLoop`. -/
theorem fetchLoop_eq (c : DepsdevAPI) (o : ℕ → Outcome) (jt : ℕ → ℚ) (a : ℕ) :
    fetchLoop c o jt a =
    if (a : ℤ) ≤ c.max_retries then
      match o a with
      | .success j => ⟨c, .payload j, 1, []⟩
      | .httpError status msg =>
          if 500 ≤ status ∧ status < 600 then
            if (a : ℤ) < c.max_retries then
              let d := backoffDelay c.base_backoff c.max_backoff a (jt a)
              let rest := fetchLoop c o jt (a + 1)
              ⟨rest.client, rest.result, rest.attempts + 1, d :: rest.sleeps⟩
            else
              ⟨c, .apiError (some status)
                ("Server error after " ++ toString c.max_retries ++ " retries: " ++ msg),
                1, []⟩
          else
            ⟨c, .apiError (some status) ("Client error: " ++ msg), 1, []⟩
      | .networkError msg =>
          if (a : ℤ) < c.max_retries then
            let d := backoffDelay c.base_backoff c.max_backoff a (jt a)
            let rest := fetchLoop c o jt (a + 1)
            ⟨rest.client, rest.result, rest.attempts + 1, d :: rest.sleeps⟩
          else
            ⟨c, .apiError none
              ("Network failure after " ++ toString c.max_retries ++ " retries: " ++ msg),
              1, []⟩
      | .otherError msg => ⟨c, .uncaught msg, 1, []⟩
    else
      ⟨c, .apiError none "Exceeded retry loop unexpectedly", 0, []⟩ := by
  rw [fetchLoop]
  simp only []
  split <;> rfl

/-- Step lemma: a successful response returns the parsed payload. -/
theorem fetchLoop_success (c : DepsdevAPI) (o : ℕ → Outcome) (jt : ℕ → ℚ) (a : ℕ)
    (ha : (a : ℤ) ≤ c.max_retries) (j : Json) (ho : o a = .success j) :
    fetchLoop c o jt a = ⟨c, .payload j, 1, []⟩ := by
  rw [fetchLoop_eq, if_pos ha, ho]

/-- Step lemma: a status outside the 5xx band raises the client error
immediately. -/
theorem fetchLoop_client (c : DepsdevAPI) (o : ℕ → Outcome) (jt : ℕ → ℚ) (a : ℕ)
    (ha : (a : ℤ) ≤ c.max_retries) (s : ℤ) (m : String) (ho : o a = .httpError s m)
    (hs : ¬(500 ≤ s ∧ s < 600)) :
    fetchLoop c o jt a = ⟨c, .apiError (some s) ("Client error: " ++ m), 1, []⟩ := by
  rw [fetchLoop_eq, if_pos ha, ho]
  simp only [if_neg hs]

/-- Step lemma: a 5xx status with budget left sleeps and retries. -/
theorem fetchLoop_server_retry (c : DepsdevAPI) (o : ℕ → Outcome) (jt : ℕ → ℚ) (a : ℕ)
    (ha : (a : ℤ) < c.max_retries) (s : ℤ) (m : String) (ho : o a = .httpError s m)
    (hs : 500 ≤ s ∧ s < 600) :
    fetchLoop c o jt a =
      ⟨(fetchLoop c o jt (a + 1)).client, (fetchLoop c o jt (a + 1)).result,
        (fetchLoop c o jt (a + 1)).attempts + 1,
        backoffDelay c.base_backoff c.max_backoff a (jt a) :: (fetchLoop c o jt (a + 1)).sleeps⟩ := by
  rw [fetchLoop_eq, if_pos (le_of_lt ha), ho]
  simp only [if_pos hs, if_pos ha]

/-- Step lemma: a 5xx status with the budget exhausted raises the
retry-exhausted server error. -/
theorem fetchLoop_server_exhaust (c : DepsdevAPI) (o : ℕ → Outcome) (jt : ℕ → ℚ) (a : ℕ)
    (ha : (a : ℤ) = c.max_retries) (s : ℤ) (m : String) (ho : o a = .httpError s m)
    (hs : 500 ≤ s ∧ s < 600) :
    fetchLoop c o jt a =
      ⟨c, .apiError (some s)
        ("Server error after " ++ toString c.max_retries ++ " retries: " ++ m), 1, []⟩ := by
  rw [fetchLoop_eq, if_pos (le_of_eq ha), ho]
  simp only [if_pos hs, if_neg (by omega : ¬((a : ℤ) < c.max_retries))]

/-- Step lemma: a connection/timeout failure with budget left sleeps and
retries. -/
theorem fetchLoop_net_retry (c : DepsdevAPI) (o : ℕ → Outcome) (jt : ℕ → ℚ) (a : ℕ)
    (ha : (a : ℤ) < c.max_retries) (m : String) (ho : o a = .networkError m) :
    fetchLoop c o jt a =
      ⟨(fetchLoop c o jt (a + 1)).client, (fetchLoop c o jt (a + 1)).result,
        (fetchLoop c o jt (a + 1)).attempts + 1,
        backoffDelay c.base_backoff c.max_backoff a (jt a) :: (fetchLoop c o jt (a + 1)).sleeps⟩ := by
  rw [fetchLoop_eq, if_pos (le_of_lt ha), ho]
  simp only [if_pos ha]

/-- Step lemma: a connection/timeout failure with the budget exhausted
raises the retry-exhausted network error, with absent status. -/
theorem fetchLoop_net_exhaust (c : DepsdevAPI) (o : ℕ → Outcome) (jt : ℕ → ℚ) (a : ℕ)
    (ha : (a : ℤ) = c.max_retries) (m : String) (ho : o a = .networkError m) :
    fetchLoop c o jt a =
      ⟨c, .apiError none
        ("Network failure after " ++ toString c.max_retries ++ " retries: " ++ m), 1, []⟩ := by
  rw [fetchLoop_eq, if_pos (le_of_eq ha), ho]
  simp only [if_neg (by omega : ¬((a : ℤ) < c.max_retries))]

/-- Step lemma: an exception matched by neither `except` arm propagates
uncaught. -/
theorem fetchLoop_other (c : DepsdevAPI) (o : ℕ → Outcome) (jt : ℕ → ℚ) (a : ℕ)
    (ha : (a : ℤ) ≤ c.max_retries) (m : String) (ho : o a = .otherError m) :
    fetchLoop c o jt a = ⟨c, .uncaught m, 1, []⟩ := by
  rw [fetchLoop_eq, if_pos ha, ho]

/-- Step lemma: when the loop guard fails, the defensive error is raised
without issuing any attempt. -/
theorem fetchLoop_fallthrough (c : DepsdevAPI) (o : ℕ → Outcome) (jt : ℕ → ℚ) (a : ℕ)
    (ha : ¬((a : ℤ) ≤ c.max_retries)) :
    fetchLoop c o jt a = ⟨c, .apiError none "Exceeded retry loop unexpectedly", 0, []⟩ := by
  rw [fetchLoop_eq, if_neg ha]

/-- The retry-exhausted network message can never coincide with the
defensive-branch message: they differ in their first character. -/
theorem network_msg_ne_exceeded (x y z : String) :
    "Network failure after " ++ x ++ y ++ z ≠ "Exceeded retry loop unexpectedly" := by
  intro h
  have h2 := congrArg String.data h
  rw [String.data_append, String.data_append, String.data_append] at h2
  have h3 : "Network failure after ".data = 'N' :: "etwork failure after ".data := rfl
  rw [h3] at h2
  simp at h2

/-- If every outcome up to the budget is retryable, the loop entered at
`a = N - d` performs `d + 1` further attempts and raises the exhausted
error determined by the outcome of attempt `N`. -/
theorem fetchLoop_all_retryable (c : DepsdevAPI) (N : ℕ) (hN : c.max_retries = (N : ℤ))
    (o : ℕ → Outcome) (jt : ℕ → ℚ)
    (hr : ∀ i, i ≤ N → retryable (o i) = true) :
    ∀ d a, a + d = N →
      (fetchLoop c o jt a).attempts = d + 1 ∧
      (∀ s m, o N = .httpError s m →
        (fetchLoop c o jt a).result =
          .apiError (some s) ("Server error after " ++ toString c.max_retries ++ " retries: " ++ m)) ∧
      (∀ m, o N = .networkError m →
        (fetchLoop c o jt a).result =
          .apiError none ("Network failure after " ++ toString c.max_retries ++ " retries: " ++ m)) := by
  intro d
  induction d with
  | zero =>
    intro a ha
    have haN : a = N := by omega
    subst haN
    have hra := hr a (le_refl a)
    cases hoN : o a with
    | success j => rw [hoN] at hra; simp [retryable] at hra
    | httpError s m =>
      have hs : 500 ≤ s ∧ s < 600 := by
        rw [hoN] at hra
        simpa [retryable, decide_eq_true_eq] using hra
      rw [fetchLoop_server_exhaust c o jt a (by omega) s m hoN hs]
      refine ⟨rfl, ?_, ?_⟩
      · intro s' m' h'
        cases h'
        rfl
      · intro m' h'
        cases h'
    | networkError m =>
      rw [fetchLoop_net_exhaust c o jt a (by omega) m hoN]
      refine ⟨rfl, ?_, ?_⟩
      · intro s' m' h'
        cases h'
      · intro m' h'
        cases h'
        rfl
    | otherError m => rw [hoN] at hra; simp [retryable] at hra
  | succ d ih =>
    intro a ha
    have hlt : (a : ℤ) < c.max_retries := by rw [hN]; exact_mod_cast (by omega : a < N)
    have hra := hr a (by omega)
    have hrest := ih (a + 1) (by omega)
    cases hoA : o a with
    | success j => rw [hoA] at hra; simp [retryable] at hra
    | httpError s m =>
      have hs : 500 ≤ s ∧ s < 600 := by
        rw [hoA] at hra
        simpa [retryable, decide_eq_true_eq] using hra
      rw [fetchLoop_server_retry c o jt a hlt s m hoA hs]
      exact ⟨by simp [hrest.1], hrest.2.1, hrest.2.2⟩
    | networkError m =>
      rw [fetchLoop_net_retry c o jt a hlt m hoA]
      exact ⟨by simp [hrest.1], hrest.2.1, hrest.2.2⟩
    | otherError m => rw [hoA] at hra; simp [retryable] at hra

/-- If the outcomes before attempt `k` are all retryable and attempt `k`
succeeds with payload `j`, the loop entered at `a = k - d` returns
exactly `j` after `d + 1` further attempts. -/
theorem fetchLoop_first_success (c : DepsdevAPI) (o : ℕ → Outcome) (jt : ℕ → ℚ)
    (k : ℕ) (j : Json) (hk : (k : ℤ) ≤ c.max_retries)
    (hpre : ∀ i, i < k → retryable (o i) = true) (hs : o k = .success j) :
    ∀ d a, a + d = k →
      (fetchLoop c o jt a).result = .payload j ∧
      (fetchLoop c o jt a).attempts = d + 1 := by
  intro d
  induction d with
  | zero =>
    intro a ha
    have hak : a = k := by omega
    subst hak
    rw [fetchLoop_success c o jt a hk j hs]
    exact ⟨rfl, rfl⟩
  | succ d ih =>
    intro a ha
    have hlt : (a : ℤ) < c.max_retries := by
      have : (a : ℤ) < (k : ℤ) := by exact_mod_cast (by omega : a < k)
      omega
    have hra := hpre a (by omega)
    have hrest := ih (a + 1) (by omega)
    cases hoA : o a with
    | success j' => rw [hoA] at hra; simp [retryable] at hra
    | httpError s m =>
      have h5 : 500 ≤ s ∧ s < 600 := by
        rw [hoA] at hra
        simpa [retryable, decide_eq_true_eq] using hra
      rw [fetchLoop_server_retry c o jt a hlt s m hoA h5]
      exact ⟨hrest.1, by simp [hrest.2]⟩
    | networkError m =>
      rw [fetchLoop_net_retry c o jt a hlt m hoA]
      exact ⟨hrest.1, by simp [hrest.2]⟩
    | otherError m => rw [hoA] at hra; simp [retryable] at hra

/-- With a non-negative budget, the loop never produces the defensive
error, and the loop counter invariant keeps the attempts within
`d + 1` when entered at `a = N - d`. -/
theorem fetchLoop_classified (c : DepsdevAPI) (N : ℕ) (hN : c.max_retries = (N : ℤ))
    (o : ℕ → Outcome) (jt : ℕ → ℚ) :
    ∀ d a, a + d = N →
      (fetchLoop c o jt a).result ≠ .apiError none "Exceeded retry loop unexpectedly" ∧
      (fetchLoop c o jt a).attempts ≤ d + 1 := by
  intro d
  induction d with
  | zero =>
    intro a ha
    have hak : a = N := by omega
    have hle : (a : ℤ) ≤ c.max_retries := by omega
    cases hoA : o a with
    | success j =>
      rw [fetchLoop_success c o jt a hle j hoA]
      exact ⟨by simp, le_refl _⟩
    | httpError s m =>
      by_cases h5 : 500 ≤ s ∧ s < 600
      · rw [fetchLoop_server_exhaust c o jt a (by omega) s m hoA h5]
        exact ⟨by simp, le_refl _⟩
      · rw [fetchLoop_client c o jt a hle s m hoA h5]
        exact ⟨by simp, le_refl _⟩
    | networkError m =>
      rw [fetchLoop_net_exhaust c o jt a (by omega) m hoA]
      refine ⟨?_, le_refl _⟩
      simp only [FetchResult.apiError.injEq, ne_eq, not_and]
      intro _
      exact network_msg_ne_exceeded _ _ _
    | otherError m =>
      rw [fetchLoop_other c o jt a hle m hoA]
      exact ⟨by simp, le_refl _⟩
  | succ d ih =>
    intro a ha
    have hle : (a : ℤ) ≤ c.max_retries := by
      have : (a : ℤ) ≤ (N : ℤ) := by exact_mod_cast (by omega : a ≤ N)
      omega
    have hrest := ih (a + 1) (by omega)
    cases hoA : o a with
    | success j =>
      rw [fetchLoop_success c o jt a hle j hoA]
      exact ⟨by simp, Nat.succ_le_succ (Nat.zero_le _)⟩
    | httpError s m =>
      by_cases h5 : 500 ≤ s ∧ s < 600
      · by_cases hlt : (a : ℤ) < c.max_retries
        · rw [fetchLoop_server_retry c o jt a hlt s m hoA h5]
          exact ⟨hrest.1, by simp; omega⟩
        · rw [fetchLoop_server_exhaust c o jt a (by omega) s m hoA h5]
          exact ⟨by simp, Nat.succ_le_succ (Nat.zero_le _)⟩
      · rw [fetchLoop_client c o jt a hle s m hoA h5]
        exact ⟨by simp, Nat.succ_le_succ (Nat.zero_le _)⟩
    | networkError m =>
      by_cases hlt : (a : ℤ) < c.max_retries
      · rw [fetchLoop_net_retry c o jt a hlt m hoA]
        exact ⟨hrest.1, by simp; omega⟩
      · rw [fetchLoop_net_exhaust c o jt a (by omega) m hoA]
        refine ⟨?_, Nat.succ_le_succ (Nat.zero_le _)⟩
        simp only [FetchResult.apiError.injEq, ne_eq, not_and]
        intro _
        exact network_msg_ne_exceeded _ _ _
    | otherError m =>
      rw [fetchLoop_other c o jt a hle m hoA]
      exact ⟨by simp, Nat.succ_le_succ (Nat.zero_le _)⟩

/-- The loop threads the client object through unchanged: no branch
assigns to any configuration field. -/
theorem fetchLoop_client_aux (c : DepsdevAPI) (o : ℕ → Outcome) (jt : ℕ → ℚ) :
    ∀ d (a : ℕ), (c.max_retries + 1 - (a : ℤ)).toNat ≤ d →
      (fetchLoop c o jt a).client = c := by
  intro d
  induction d with
  | zero =>
    intro a ha
    rw [fetchLoop_fallthrough c o jt a (by omega)]
  | succ d ih =>
    intro a ha
    by_cases hle : (a : ℤ) ≤ c.max_retries
    · cases hoA : o a with
      | success j => rw [fetchLoop_success c o jt a hle j hoA]
      | httpError s m =>
        by_cases h5 : 500 ≤ s ∧ s < 600
        · by_cases hlt : (a : ℤ) < c.max_retries
          · rw [fetchLoop_server_retry c o jt a hlt s m hoA h5]
            exact ih (a + 1) (by omega)
          · rw [fetchLoop_server_exhaust c o jt a (by omega) s m hoA h5]
        · rw [fetchLoop_client c o jt a hle s m hoA h5]
      | networkError m =>
        by_cases hlt : (a : ℤ) < c.max_retries
        · rw [fetchLoop_net_retry c o jt a hlt m hoA]
          exact ih (a + 1) (by omega)
        · rw [fetchLoop_net_exhaust c o jt a (by omega) m hoA]
      | otherError m => rw [fetchLoop_other c o jt a hle m hoA]
    · rw [fetchLoop_fallthrough c o jt a hle]

/-- If no attempt raises an unexpected exception, the loop ends in an
`APIError` or a payload. -/
theorem fetchLoop_no_other (c : DepsdevAPI) (o : ℕ → Outcome) (jt : ℕ → ℚ)
    (hno : ∀ i m', o i ≠ .otherError m') :
    ∀ d (a : ℕ), (c.max_retries + 1 - (a : ℤ)).toNat ≤ d →
      isAPIError (fetchLoop c o jt a).result = true ∨
      ∃ j, (fetchLoop c o jt a).result = .payload j := by
  intro d
  induction d with
  | zero =>
    intro a ha
    rw [fetchLoop_fallthrough c o jt a (by omega)]
    exact Or.inl rfl
  | succ d ih =>
    intro a ha
    by_cases hle : (a : ℤ) ≤ c.max_retries
    · cases hoA : o a with
      | success j =>
        rw [fetchLoop_success c o jt a hle j hoA]
        exact Or.inr ⟨j, rfl⟩
      | httpError s m =>
        by_cases h5 : 500 ≤ s ∧ s < 600
        · by_cases hlt : (a : ℤ) < c.max_retries
          · rw [fetchLoop_server_retry c o jt a hlt s m hoA h5]
            exact ih (a + 1) (by omega)
          · rw [fetchLoop_server_exhaust c o jt a (by omega) s m hoA h5]
            exact Or.inl rfl
        · rw [fetchLoop_client c o jt a hle s m hoA h5]
          exact Or.inl rfl
      | networkError m =>
        by_cases hlt : (a : ℤ) < c.max_retries
        · rw [fetchLoop_net_retry c o jt a hlt m hoA]
          exact ih (a + 1) (by omega)
        · rw [fetchLoop_net_exhaust c o jt a (by omega) m hoA]
          exact Or.inl rfl
      | otherError m => exact absurd hoA (hno a m)
    · rw [fetchLoop_fallthrough c o jt a hle]
      exact Or.inl rfl

/-- Claim C1: for every `max_retries = N ≥ 0`, a `fetch_data` call whose
every attempt fails with a 5xx status performs exactly `N + 1` HTTP GET
attempts (and never an `N + 2`nd) and raises `APIError` carrying the
last-seen status and the message
`Server error after N retries: <detail>`. -/
theorem C1_all_5xx_exhausts_budget (c : DepsdevAPI) (N : ℕ)
    (s : ℕ → ℤ) (m : ℕ → String) (o : ℕ → Outcome) (jt : ℕ → ℚ)
    (hN : c.max_retries = (N : ℤ))
    (ho : ∀ i, o i = .httpError (s i) (m i))
    (h5 : ∀ i, 500 ≤ s i ∧ s i < 600) :
    (c.fetch_data o jt).attempts = N + 1 ∧
    (c.fetch_data o jt).result =
      .apiError (some (s N))
        ("Server error after " ++ toString (N : ℤ) ++ " retries: " ++ m N) := by
  have hr : ∀ i, i ≤ N → retryable (o i) = true := by
    intro i _
    rw [ho i]
    simp only [retryable, Bool.and_eq_true, decide_eq_true_eq]
    exact h5 i
  have key := fetchLoop_all_retryable c N hN o jt hr N 0 (by omega)
  unfold DepsdevAPI.fetch_data
  refine ⟨key.1, ?_⟩
  have h2 := key.2.1 (s N) (m N) (ho N)
  rw [hN] at h2
  exact h2

/-- Witness for C1 at `max_retries = 2` with every attempt a 503. -/
theorem C1_witness :
    ((DepsdevAPI.init 10 2 1 100).fetch_data
        (fun _ => .httpError 503 "unavailable") (fun _ => 0)).attempts = 2 + 1 ∧
    ((DepsdevAPI.init 10 2 1 100).fetch_data
        (fun _ => .httpError 503 "unavailable") (fun _ => 0)).result =
      .apiError (some 503)
        ("Server error after " ++ toString (2 : ℤ) ++ " retries: " ++ "unavailable") :=
  C1_all_5xx_exhausts_budget (DepsdevAPI.init 10 2 1 100) 2
    (fun _ => 503) (fun _ => "unavailable") _ _ rfl (fun _ => rfl) (by intro i; norm_num)

/-- Claim C2, counterexample: with `base_backoff = 1`, `max_backoff = 0`,
attempt `0`, jitter draw `0`, the clamp pulls the delay below
`base_backoff * 2^0`; and with `base_backoff = 0`, `max_backoff = 1`,
attempt `0`, jitter draw `1/10`, the delay exceeds
`min(base_backoff * 2^0 * 1.1, max_backoff)`, since the jitter is an
absolute `0.1 * 2^attempt`, not a fraction of the unjittered delay. -/
theorem C2_counterexample :
    ¬ ((1 : ℚ) * 2 ^ 0 ≤ backoffDelay 1 0 0 0) ∧
    ¬ (backoffDelay 0 1 0 (1/10) ≤ min ((0 : ℚ) * 2 ^ 0 * (11/10)) 1) := by
  constructor <;> norm_num [backoffDelay]

/-- Claim C2 as amended: for every attempt index `i` and every jitter
draw `u ∈ [0, 0.1 * 2^i]`, the backoff delay satisfies
`min(base_backoff * 2^i, max_backoff) ≤ delay ≤
min(base_backoff * 2^i + 0.1 * 2^i, max_backoff)`; and with
non-negative `base_backoff` and `max_backoff` it is never negative. -/
theorem C2_backoff_delay_bounds (base maxB u : ℚ) (i : ℕ)
    (hu0 : 0 ≤ u) (hu1 : u ≤ 1/10 * 2 ^ i) :
    min (base * 2 ^ i) maxB ≤ backoffDelay base maxB i u ∧
    backoffDelay base maxB i u ≤ min (base * 2 ^ i + 1/10 * 2 ^ i) maxB ∧
    (0 ≤ base → 0 ≤ maxB → 0 ≤ backoffDelay base maxB i u) := by
  unfold backoffDelay
  refine ⟨min_le_min (by linarith) le_rfl, min_le_min (by linarith) le_rfl, ?_⟩
  intro hb hm
  have hpow : (0 : ℚ) ≤ base * 2 ^ i := by positivity
  exact le_min (by linarith) hm

/-- Witness for the amended C2 at `base_backoff = 1`, `max_backoff = 5`,
attempt `1`, jitter draw `1/8`. -/
theorem C2_witness :
    min ((1 : ℚ) * 2 ^ 1) 5 ≤ backoffDelay 1 5 1 (1/8) ∧
    backoffDelay 1 5 1 (1/8) ≤ min ((1 : ℚ) * 2 ^ 1 + 1/10 * 2 ^ 1) 5 ∧
    ((0 : ℚ) ≤ 1 → (0 : ℚ) ≤ 5 → 0 ≤ backoffDelay 1 5 1 (1/8)) :=
  C2_backoff_delay_bounds 1 5 (1/8) 1 (by norm_num) (by norm_num)

/-- Claim C3: for every `max_retries ≥ 0`, a 4xx status on the first
attempt raises `APIError` carrying that status and a message beginning
`Client error: ` after exactly one attempt, with no sleep and no
further attempts. -/
theorem C3_first_attempt_4xx_fails_fast (c : DepsdevAPI) (o : ℕ → Outcome)
    (jt : ℕ → ℚ) (s : ℤ) (m : String)
    (hN : 0 ≤ c.max_retries) (ho : o 0 = .httpError s m)
    (hs : 400 ≤ s ∧ s < 500) :
    c.fetch_data o jt =
      ⟨c, .apiError (some s) ("Client error: " ++ m), 1, []⟩ := by
  unfold DepsdevAPI.fetch_data
  exact fetchLoop_client c o jt 0 (by push_cast; omega) s m ho (by omega)

/-- Witness for C3 at `max_retries = 3` with a 404 first attempt. -/
theorem C3_witness :
    (DepsdevAPI.init 10 3 1 100).fetch_data
        (fun _ => .httpError 404 "not found") (fun _ => 0) =
      ⟨DepsdevAPI.init 10 3 1 100,
        .apiError (some 404) ("Client error: " ++ "not found"), 1, []⟩ :=
  C3_first_attempt_4xx_fails_fast (DepsdevAPI.init 10 3 1 100) _ _ 404 "not found"
    (by norm_num [DepsdevAPI.init]) rfl (by decide)

/-- Claim C4: if the attempts before index `k` are all retryable and
attempt `k` (within the budget) succeeds with payload `j`, then
`fetch_data` stops at that attempt and returns exactly `j`, after
`k + 1` attempts. The witness instantiates the spec scenario
`max_retries = 2`, zero backoff, outcomes 500, 502, then success. -/
theorem C4_success_short_circuits (c : DepsdevAPI) (o : ℕ → Outcome)
    (jt : ℕ → ℚ) (k : ℕ) (j : Json)
    (hk : (k : ℤ) ≤ c.max_retries)
    (hpre : ∀ i, i < k → retryable (o i) = true)
    (hs : o k = .success j) :
    (c.fetch_data o jt).result = .payload j ∧
    (c.fetch_data o jt).attempts = k + 1 := by
  unfold DepsdevAPI.fetch_data
  exact fetchLoop_first_success c o jt k j hk hpre hs k 0 (by omega)

/-- Witness for C4: the spec scenario returns the payload
`{"ok": true}` unchanged after exactly 3 attempts. -/
theorem C4_witness :
    ((DepsdevAPI.init 10 2 0 0).fetch_data
        (fun i => match i with
          | 0 => .httpError 500 "Internal Server Error"
          | 1 => .httpError 502 "Bad Gateway"
          | _ => .success (Json.obj [("ok", Json.bool true)]))
        (fun _ => 0)).result = .payload (Json.obj [("ok", Json.bool true)]) ∧
    ((DepsdevAPI.init 10 2 0 0).fetch_data
        (fun i => match i with
          | 0 => .httpError 500 "Internal Server Error"
          | 1 => .httpError 502 "Bad Gateway"
          | _ => .success (Json.obj [("ok", Json.bool true)]))
        (fun _ => 0)).attempts = 2 + 1 :=
  C4_success_short_circuits (DepsdevAPI.init 10 2 0 0) _ _ 2
    (Json.obj [("ok", Json.bool true)]) (by decide) (by decide) rfl

/-- Claim C5: for every `max_retries = N ≥ 0`, if every attempt fails
with a connection/timeout error then `fetch_data` performs exactly
`N + 1` attempts — the same counting schedule as 5xx — and raises
`APIError` with absent status and a message containing
`Network failure`. -/
theorem C5_all_network_failures_exhaust_budget (c : DepsdevAPI) (N : ℕ)
    (m : ℕ → String) (o : ℕ → Outcome) (jt : ℕ → ℚ)
    (hN : c.max_retries = (N : ℤ))
    (ho : ∀ i, o i = .networkError (m i)) :
    (c.fetch_data o jt).attempts = N + 1 ∧
    (c.fetch_data o jt).result =
      .apiError none
        ("Network failure after " ++ toString (N : ℤ) ++ " retries: " ++ m N) := by
  have hr : ∀ i, i ≤ N → retryable (o i) = true := by
    intro i _
    rw [ho i]
    rfl
  have key := fetchLoop_all_retryable c N hN o jt hr N 0 (by omega)
  unfold DepsdevAPI.fetch_data
  refine ⟨key.1, ?_⟩
  have h2 := key.2.2 (m N) (ho N)
  rw [hN] at h2
  exact h2

/-- Witness for C5 at `max_retries = 1` with every attempt a connection
failure. -/
theorem C5_witness :
    ((DepsdevAPI.init 10 1 1 100).fetch_data
        (fun _ => .networkError "connection reset") (fun _ => 0)).attempts = 1 + 1 ∧
    ((DepsdevAPI.init 10 1 1 100).fetch_data
        (fun _ => .networkError "connection reset") (fun _ => 0)).result =
      .apiError none
        ("Network failure after " ++ toString (1 : ℤ) ++ " retries: " ++ "connection reset") :=
  C5_all_network_failures_exhaust_budget (DepsdevAPI.init 10 1 1 100) 1
    (fun _ => "connection reset") _ _ rfl (fun _ => rfl)

/-- Claim C6: for every configuration with `max_retries = N ≥ 0` and
every sequence of attempt outcomes, the defensive branch is
unreachable — the result is never
`APIError(None, "Exceeded retry loop unexpectedly")` — and the loop
invariant `attempt_count ≤ max_retries` keeps the attempt count within
`N + 1`. -/
theorem C6_defensive_branch_unreachable (c : DepsdevAPI) (N : ℕ)
    (o : ℕ → Outcome) (jt : ℕ → ℚ) (hN : c.max_retries = (N : ℤ)) :
    (c.fetch_data o jt).result ≠ .apiError none "Exceeded retry loop unexpectedly" ∧
    (c.fetch_data o jt).attempts ≤ N + 1 := by
  unfold DepsdevAPI.fetch_data
  exact fetchLoop_classified c N hN o jt N 0 (by omega)

/-- Witness for C6 at `max_retries = 0` with a network failure. -/
theorem C6_witness :
    ((DepsdevAPI.init 10 0 0 0).fetch_data
        (fun _ => .networkError "down") (fun _ => 0)).result ≠
      .apiError none "Exceeded retry loop unexpectedly" ∧
    ((DepsdevAPI.init 10 0 0 0).fetch_data
        (fun _ => .networkError "down") (fun _ => 0)).attempts ≤ 0 + 1 :=
  C6_defensive_branch_unreachable (DepsdevAPI.init 10 0 0 0) 0 _ _ rfl

/-- Claim C7, counterexample: an unexpected transport exception on the
first attempt escapes `fetch_data` uncaught — a failing outcome that is
not the terminal error type `APIError`. -/
theorem C7_counterexample :
    ((DepsdevAPI.init 10 0 0 0).fetch_data
        (fun _ => .otherError "boom") (fun _ => 0)).result = .uncaught "boom" ∧
    isFailure ((DepsdevAPI.init 10 0 0 0).fetch_data
        (fun _ => .otherError "boom") (fun _ => 0)).result = true ∧
    isAPIError ((DepsdevAPI.init 10 0 0 0).fetch_data
        (fun _ => .otherError "boom") (fun _ => 0)).result = false := by
  have h := fetchLoop_other (DepsdevAPI.init 10 0 0 0)
    (fun _ => .otherError "boom") (fun _ => 0) 0 (by norm_num [DepsdevAPI.init]) "boom" rfl
  unfold DepsdevAPI.fetch_data
  rw [h]
  exact ⟨rfl, rfl, rfl⟩

/-- Claim C7 as amended: as long as no attempt raises an unexpected
transport exception, every failing outcome of `fetch_data` surfaces as
the single terminal error type `APIError`, with no silent recovery;
unexpected exceptions are non-retryable but propagate with their
original type instead of being wrapped in `APIError`. -/
theorem C7_failures_are_apierrors_unless_unexpected (c : DepsdevAPI)
    (o : ℕ → Outcome) (jt : ℕ → ℚ)
    (hno : ∀ i m', o i ≠ .otherError m') :
    isFailure (c.fetch_data o jt).result = true →
    isAPIError (c.fetch_data o jt).result = true := by
  intro hf
  unfold DepsdevAPI.fetch_data at *
  rcases fetchLoop_no_other c o jt hno (c.max_retries + 1 - (0 : ℤ)).toNat 0 le_rfl with
    h | ⟨j, h⟩
  · exact h
  · rw [h] at hf
    exact absurd hf (by simp [isFailure])

/-- Witness for the amended C7 at `max_retries = 0` with a network
failure on the only attempt. -/
theorem C7_witness :
    isAPIError ((DepsdevAPI.init 10 0 0 0).fetch_data
        (fun _ => .networkError "down") (fun _ => 0)).result = true :=
  C7_failures_are_apierrors_unless_unexpected (DepsdevAPI.init 10 0 0 0) _ _
    (fun _ _ h => Outcome.noConfusion h)
    (by
      unfold DepsdevAPI.fetch_data
      rw [fetchLoop_net_exhaust (DepsdevAPI.init 10 0 0 0) _ _ 0
        (by norm_num [DepsdevAPI.init]) "down" rfl]
      rfl)

/-- Claim C8: whatever the outcomes of a `fetch_data` call, the client
configuration — `timeout_duration`, `max_retries`, `base_backoff`,
`max_backoff`, and the fixed header set — is exactly the same after the
call as before it. -/
theorem C8_configuration_unchanged (c : DepsdevAPI) (o : ℕ → Outcome) (jt : ℕ → ℚ) :
    (c.fetch_data o jt).client = c := by
  unfold DepsdevAPI.fetch_data
  exact fetchLoop_client_aux c o jt (c.max_retries + 1 - (0 : ℤ)).toNat 0 le_rfl

/-- Claim C9: every status-coded failure outside the 500–599 band —
including statuses below 400 and at 600 or above — is terminal: it
raises `APIError` carrying that status with a message beginning
`Client error: `, after one attempt and with no retry. -/
theorem C9_non_5xx_status_fails_fast (c : DepsdevAPI) (o : ℕ → Outcome)
    (jt : ℕ → ℚ) (s : ℤ) (m : String)
    (hN : 0 ≤ c.max_retries) (ho : o 0 = .httpError s m)
    (hs : ¬(500 ≤ s ∧ s < 600)) :
    c.fetch_data o jt =
      ⟨c, .apiError (some s) ("Client error: " ++ m), 1, []⟩ := by
  unfold DepsdevAPI.fetch_data
  exact fetchLoop_client c o jt 0 (by push_cast; omega) s m ho hs

/-- Witness for C9 with a 302 status, which lies below the 400–499
range. -/
theorem C9_witness :
    (DepsdevAPI.init 10 5 1 100).fetch_data
        (fun _ => .httpError 302 "Found") (fun _ => 0) =
      ⟨DepsdevAPI.init 10 5 1 100,
        .apiError (some 302) ("Client error: " ++ "Found"), 1, []⟩ :=
  C9_non_5xx_status_fails_fast (DepsdevAPI.init 10 5 1 100) _ _ 302 "Found"
    (by norm_num [DepsdevAPI.init]) rfl (by decide)

/-- Claim C10: with a negative `max_retries`, `fetch_data` performs zero
HTTP attempts and immediately raises `APIError` with absent status and
the message `Exceeded retry loop unexpectedly`. -/
theorem C10_negative_retries_immediate_fallthrough (c : DepsdevAPI)
    (o : ℕ → Outcome) (jt : ℕ → ℚ) (hneg : c.max_retries < 0) :
    c.fetch_data o jt =
      ⟨c, .apiError none "Exceeded retry loop unexpectedly", 0, []⟩ := by
  unfold DepsdevAPI.fetch_data
  exact fetchLoop_fallthrough c o jt 0 (by push_cast; omega)

/-- Witness for C10 at `max_retries = -1`. -/
theorem C10_witness :
    (DepsdevAPI.init 10 (-1) 1 100).fetch_data
        (fun _ => .success Json.null) (fun _ => 0) =
      ⟨DepsdevAPI.init 10 (-1) 1 100,
        .apiError none "Exceeded retry loop unexpectedly", 0, []⟩ :=
  C10_negative_retries_immediate_fallthrough (DepsdevAPI.init 10 (-1) 1 100) _ _
    (by norm_num [DepsdevAPI.init])
